import Mathlib

/-!
Verification development for the noesisfood normalization / classification /
scoring pipeline (`app/services/product_normalizer.py`,
`app/services/scanner_service.py`).

The Python code is shallowly embedded: real-valued quantities become `ℚ`
(Python floats are modelled exactly as rationals; every numeric constant in
the source is decimal and the concrete scenarios below are checked to agree
with IEEE double evaluation), dictionaries with a fixed shape become
structures, raw payload values become a small `PyVal` type, and Python's
truthiness rules (`x or y`, `if not serving`) are modelled explicitly.
Python's `round` is round-half-to-even and is modelled by `pyRound`.
-/

namespace Noesis

set_option maxRecDepth 8000

/-- Floor of a rational as an integer (`Int.fdiv` is floor division). -/
def ratFloor (q : ℚ) : ℤ := Int.fdiv q.num (q.den : ℤ)

/-- Python 3 `round(x)`: nearest integer, ties go to the even integer. -/
def pyRound (q : ℚ) : ℤ :=
  let f : ℤ := ratFloor q
  let frac : ℚ := q - (f : ℚ)
  if frac < 1/2 then f
  else if 1/2 < frac then f + 1
  else if f % 2 = 0 then f else f + 1

/-- Python `round(x, 1)`: round to one decimal place (ties to even). -/
def pyRound1 (q : ℚ) : ℚ := (pyRound (q * 10) : ℚ) / 10

/-- Python whitespace for `str.strip` / regex `\s` (ASCII range). -/
def pyIsSpace (c : Char) : Bool :=
  c = ' ' || c = '\t' || c = '\n' || c = '\r' || c = '\x0b' || c = '\x0c'

/-- Strip `pyIsSpace` characters from both ends of a character list. -/
def stripChars (l : List Char) : List Char :=
  ((l.dropWhile pyIsSpace).reverse.dropWhile pyIsSpace).reverse

/-- Python `str.strip()`. -/
def pyStrip (s : String) : String := ⟨stripChars s.data⟩

/-- Python `str.lower()` (ASCII letters; the keyword lists compared against
are all ASCII). -/
def pyLower (s : String) : String := ⟨s.data.map Char.toLower⟩

/-- Does `hay` start with `needle`? -/
def listStartsWith : List Char → List Char → Bool
  | _, [] => true
  | [], _ :: _ => false
  | a :: as, b :: bs => a == b && listStartsWith as bs

/-- Does `hay` contain `needle` as a contiguous substring
(Python `needle in hay`)? -/
def listHasSub : List Char → List Char → Bool
  | [], needle => needle.isEmpty
  | a :: rest, needle => listStartsWith (a :: rest) needle || listHasSub rest needle

/-- Python `needle in hay` on strings. -/
def strHasSub (hay needle : String) : Bool := listHasSub hay.data needle.data

/-- Python `a or b` where both operands are `float | None`
(`None` and `0.0` are falsy). -/
def pyOrFloat : Option ℚ → Option ℚ → Option ℚ
  | some x, b => if x = 0 then b else some x
  | Option.none, b => b

/-- Python `a or b` where both operands are `str | None`
(`None` and `""` are falsy). -/
def orStr : Option String → Option String → Option String
  | some s, b => if s = "" then b else some s
  | Option.none, b => b

/-- Numeric value of a decimal digit character. -/
def digitVal (c : Char) : ℕ := c.toNat - 48

/-- Value of a list of decimal digit characters. -/
def digitsToNat (ds : List Char) : ℕ :=
  ds.foldl (fun a c => a * 10 + digitVal c) 0

/-- Unsigned part of Python `float(s)`: integer digits, optional `.`
fraction, optional exponent.  Every value produced is non-negative. -/
def parseFloatCore (cs : List Char) : Option ℚ :=
  let ip := cs.takeWhile Char.isDigit
  let cs2 := cs.dropWhile Char.isDigit
  let fp : List Char :=
    match cs2 with
    | '.' :: r => r.takeWhile Char.isDigit
    | _ => []
  let cs3 : List Char :=
    match cs2 with
    | '.' :: r => r.dropWhile Char.isDigit
    | _ => cs2
  if ip.isEmpty && fp.isEmpty then Option.none
  else
    let mant : ℚ := (digitsToNat ip : ℚ) + (digitsToNat fp : ℚ) / ((10 : ℚ) ^ fp.length)
    match cs3 with
    | [] => some mant
    | 'e' :: r | 'E' :: r =>
      let esgnRest : ℤ × List Char :=
        match r with
        | '-' :: r2 => (-1, r2)
        | '+' :: r2 => (1, r2)
        | _ => (1, r)
      let ed := esgnRest.2.takeWhile Char.isDigit
      if ed.isEmpty || !(esgnRest.2.dropWhile Char.isDigit).isEmpty then Option.none
      else some (mant * (10 : ℚ) ^ (esgnRest.1 * (digitsToNat ed : ℤ)))
    | _ => Option.none

/-- Python `float(s)` on an already-stripped string, for finite decimal
numerals with an optional sign, fraction, and exponent (the grammar that can
actually reach this model; `inf` / `nan` / underscore separators are outside
the payloads considered and are not representable in `ℚ`).
Returns `none` where Python raises `ValueError`. -/
def parseFloatChars (cs : List Char) : Option ℚ :=
  match cs with
  | '-' :: r => (parseFloatCore r).map (fun q => -q)
  | '+' :: r => parseFloatCore r
  | _ => parseFloatCore cs

/-- A raw value found in a source payload map: absent/`None`, a number,
or a string. -/
inductive PyVal where
  | none
  | num (q : ℚ)
  | str (s : String)
deriving DecidableEq

/-- Model of `_to_float` from `product_normalizer.py`: numbers pass through, strings
are stripped, `","` is replaced by `"."` (character-wise, as the needle is a
single character), and parsed; anything else is `None`. -/
def _to_float : PyVal → Option ℚ
  | .none => Option.none
  | .num q => some q
  | .str s =>
    let s1 := stripChars s.data
    let s2 := s1.map (fun c => if c = ',' then '.' else c)
    if s2.isEmpty then Option.none else parseFloatChars s2

/-- Model of `_clamp_nonneg` from `product_normalizer.py`. -/
def _clamp_nonneg : Option ℚ → ℚ
  | Option.none => 0
  | some q => max 0 q

/-- Model of `_get_nutriment` from `product_normalizer.py`: try an ordered list of
keys against the nutriments map (an association list, keys unique); return
the first parseable value clamped to be non-negative, else `0.0`.
A key that is present but unparseable falls through to the next key. -/
def _get_nutriment (nutriments : List (String × PyVal)) : List String → ℚ
  | [] => 0
  | k :: rest =>
    match (nutriments.find? (fun kv => kv.1 = k)) with
    | Option.none => _get_nutriment nutriments rest
    | some kv =>
      match _to_float kv.2 with
      | Option.none => _get_nutriment nutriments rest
      | some v => _clamp_nonneg (some v)

/-! ### Serving-size regex

`_parse_serving_size_to_g_or_ml` uses
`re.search(r"(\d+(?:\.\d+)?)\s*(g|gr|gram|grams|ml|cl|l)\b", s)` with a
parenthesized fallback.  The two patterns are modelled directly: leftmost
match, ordered alternation with backtracking, `\b` as a word-boundary test.
`\d+` is matched greedily with no backtracking: shortening the digit run
leaves a digit as the next character, which can satisfy neither `\s*` nor a
unit letter, and the optional `(?:\.\d+)?` group likewise never succeeds
after its greedy form fails (the next character would be `'.'`). -/

/-- Regex `\w` (ASCII scope; inputs here are lowercased payload text). -/
def isWordChar (c : Char) : Bool := c.isAlphanum || c = '_'

/-- Regex `\s*`: drop leading whitespace. -/
def dropSpaces (cs : List Char) : List Char := cs.dropWhile pyIsSpace

/-- Match `\d+(?:\.\d+)?` at the head; return the captured characters and
the rest.  Greedy (see the note above). -/
def matchNumber (cs : List Char) : Option (List Char × List Char) :=
  let ds := cs.takeWhile Char.isDigit
  let r := cs.dropWhile Char.isDigit
  if ds.isEmpty then Option.none
  else
    match r with
    | '.' :: r2 =>
      let fs := r2.takeWhile Char.isDigit
      if fs.isEmpty then some (ds, r)
      else some (ds ++ '.' :: fs, r2.dropWhile Char.isDigit)
    | _ => some (ds, r)

/-- Match one of the unit alternatives (in regex alternation order) followed
by a word boundary `\b`; on a boundary failure the next alternative is
tried, as regex backtracking does. -/
def matchUnitWB : List (List Char) → List Char → Option (List Char)
  | [], _ => Option.none
  | a :: rest, cs =>
    if listStartsWith cs a then
      match cs.drop a.length with
      | [] => some a
      | c :: _ => if isWordChar c then matchUnitWB rest cs else some a
    else matchUnitWB rest cs

/-- Unit alternation of the first serving-size pattern, in source order. -/
def servingUnits1 : List (List Char) :=
  [['g'], ['g', 'r'], ['g', 'r', 'a', 'm'], ['g', 'r', 'a', 'm', 's'],
   ['m', 'l'], ['c', 'l'], ['l']]

/-- Unit alternation of the parenthesized fallback pattern. -/
def servingUnits2 : List (List Char) :=
  [['g'], ['g', 'r'], ['m', 'l'], ['c', 'l'], ['l']]

/-- Try `(\d+(?:\.\d+)?)\s*(g|gr|gram|grams|ml|cl|l)\b` at this position;
returns the two captured groups. -/
def matchPat1At (cs : List Char) : Option (List Char × List Char) :=
  match matchNumber cs with
  | Option.none => Option.none
  | some nr =>
    match matchUnitWB servingUnits1 (dropSpaces nr.2) with
    | Option.none => Option.none
    | some u => some (nr.1, u)

/-- Model of `re.search` for the first pattern: leftmost position that matches. -/
def searchPat1 : List Char → Option (List Char × List Char)
  | [] => Option.none
  | c :: rest =>
    match matchPat1At (c :: rest) with
    | some m => some m
    | Option.none => searchPat1 rest

/-- Match one unit alternative that must be directly followed by `)`. -/
def matchUnitParen : List (List Char) → List Char → Option (List Char)
  | [], _ => Option.none
  | a :: rest, cs =>
    if listStartsWith cs a && ((cs.drop a.length).head? = some ')') then some a
    else matchUnitParen rest cs

/-- Try `\((\d+(?:\.\d+)?)\s*(g|gr|ml|cl|l)\)` at this position. -/
def matchPat2At (cs : List Char) : Option (List Char × List Char) :=
  match cs with
  | '(' :: r =>
    match matchNumber r with
    | some nr =>
      match matchUnitParen servingUnits2 (dropSpaces nr.2) with
      | some u => some (nr.1, u)
      | Option.none => Option.none
    | Option.none => Option.none
  | _ => Option.none

/-- Model of `re.search` for the parenthesized fallback pattern. -/
def searchPat2 : List Char → Option (List Char × List Char)
  | [] => Option.none
  | c :: rest =>
    match matchPat2At (c :: rest) with
    | some m => some m
    | Option.none => searchPat2 rest

/-- Model of `_parse_serving_size_to_g_or_ml` from `product_normalizer.py`.  The
serving-size source fields are strings at the ingestion boundary; `none`
models an absent value and `""` is falsy, both hitting `if not serving`. -/
def _parse_serving_size_to_g_or_ml (serving : Option String) : Option ℚ :=
  match serving with
  | Option.none => Option.none
  | some s0 =>
    if s0 = "" then Option.none
    else
      let s := stripChars (pyLower s0).data
      let m :=
        match searchPat1 s with
        | some m => some m
        | Option.none => searchPat2 s
      match m with
      | Option.none => Option.none
      | some g =>
        match _to_float (.str ⟨g.1⟩) with
        | Option.none => Option.none
        | some qty =>
          if g.2 = ['g'] || g.2 = ['g', 'r'] || g.2 = ['g', 'r', 'a', 'm']
              || g.2 = ['g', 'r', 'a', 'm', 's'] then some qty
          else if g.2 = ['m', 'l'] then some qty
          else if g.2 = ['c', 'l'] then some (qty * 10)
          else if g.2 = ['l'] then some (qty * 1000)
          else Option.none

/-! ### Ingredients -/

/-- One canonical ingredient record. -/
structure Ingredient where
  name : String
  /-- the `class` key of the Python dict (`class` is reserved in Lean) -/
  class_ : String
  note : String
deriving DecidableEq

/-- One raw entry of a source `ingredients` list: a dict with optional
`text` / `id` keys, or any other value (taken through `str`). -/
inductive IngEntry where
  | obj (text id : Option String)
  | raw (s : String)
deriving DecidableEq

/-- Model of `_parse_ingredients_as_objects` from `product_normalizer.py`. -/
def _parse_ingredients_as_objects
    (ingredients : List IngEntry) (ingredients_text ingredients_text_en : Option String) :
    List Ingredient :=
  match ingredients with
  | l@(_ :: _) =>
    l.filterMap (fun ing =>
      let name0 :=
        match ing with
        | .obj t i => (orStr t (orStr i (some ""))).getD ""
        | .raw s => s
      let name := pyStrip name0
      if name = "" then Option.none
      else some ⟨name, "U", "From OpenFoodFacts"⟩)
  | [] =>
    let txt := pyStrip ((orStr ingredients_text (orStr ingredients_text_en (some ""))).getD "")
    if txt = "" then []
    else
      let parts := txt.data.splitOnP (fun c => c = ';' || c = ',')
      parts.filterMap (fun p =>
        let p := pyStrip ⟨p⟩
        if p = "" then Option.none
        else some ⟨p, "U", "From OpenFoodFacts"⟩)

/-! ### Beverage inference -/

/-- Constant `_BEVERAGE_POSITIVE`: positive category tags. -/
def _BEVERAGE_POSITIVE : List String :=
  ["en:beverages", "en:soft-drinks", "en:sodas", "en:carbonated-drinks",
   "en:carbonated-soft-drinks", "en:colas", "en:cola", "en:juices",
   "en:fruit-juices", "en:energy-drinks", "en:iced-teas", "en:waters",
   "en:flavoured-waters", "en:sports-drinks"]

/-- Constant `_BEVERAGE_NEGATIVE`: negative category tags. -/
def _BEVERAGE_NEGATIVE : List String :=
  ["en:yogurts", "en:greek-yogurts", "en:dairy-desserts", "en:cheeses",
   "en:milk", "en:cream", "en:fermented-milk-products", "en:desserts",
   "en:soups", "en:sauces"]

/-- Constant `_NAME_POSITIVE`: weak beverage name hints. -/
def _NAME_POSITIVE : List String :=
  ["cola", "coca-cola", "soft drink", "soda", "carbonated", "sparkling",
   "juice", "energy drink", "iced tea", "water"]

/-- Constant `_NAME_NEGATIVE`: weak solid name hints. -/
def _NAME_NEGATIVE : List String :=
  ["yogurt", "yoghurt", "joghurt", "cream", "cheese", "soup", "sauce",
   "dessert"]

/-- The raw OpenFoodFacts `product` sub-object: the fields the pipeline
reads, typed at the ingestion boundary.  `none` models an absent key.
`nutriments` is the nutriment map as an association list (keys unique);
its `serving_size` entry is carried as `nutriments_serving_size`. -/
structure OFFProduct where
  nutrition_data_per : Option String := Option.none
  categories_tags : List String := []
  quantity : Option String := Option.none
  product_name : Option String := Option.none
  product_name_en : Option String := Option.none
  generic_name : Option String := Option.none
  brands : Option String := Option.none
  brand_owner : Option String := Option.none
  code : Option String := Option.none
  image_url : Option String := Option.none
  image_front_url : Option String := Option.none
  serving_size : Option String := Option.none
  nutriments : List (String × PyVal) := []
  nutriments_serving_size : Option String := Option.none
  ingredients : List IngEntry := []
  ingredients_text : Option String := Option.none
  ingredients_text_en : Option String := Option.none
deriving DecidableEq

/-- Separator class of the multi-pack quantity pattern.  The source file
contains the bytes `[x` `U+00C3` `U+2014` `]` (a mojibake of `×`), so the
class is literally `{x, Ã, —}`. -/
def packSepChar (c : Char) : Bool := c = 'x' || c = 'Ã' || c = '—'

/-- Unit alternation `(ml|cl|l)` of the quantity patterns. -/
def volUnits : List (List Char) := [['m', 'l'], ['c', 'l'], ['l']]

/-- Match `(\d+)\s*[xÃ—]\s*(\d+(?:\.\d+)?)\s*(ml|cl|l)\b` at this position
(the leading `\b` is handled by the caller's previous-character test). -/
def matchVolA (cs : List Char) : Bool :=
  if (cs.takeWhile Char.isDigit).isEmpty then false
  else
    match dropSpaces (cs.dropWhile Char.isDigit) with
    | c :: r2 =>
      if packSepChar c then
        match matchNumber (dropSpaces r2) with
        | some nr => (matchUnitWB volUnits (dropSpaces nr.2)).isSome
        | Option.none => false
      else false
    | [] => false

/-- Match `(\d+(?:\.\d+)?)\s*(ml|cl|l)\b` at this position. -/
def matchVolB (cs : List Char) : Bool :=
  match matchNumber cs with
  | some nr => (matchUnitWB volUnits (dropSpaces nr.2)).isSome
  | Option.none => false

/-- Model of `re.search` with a leading `\b`: the pattern can fire at a position
only when the previous character is not a word character (both quantity
patterns then require a digit, a word character, so the boundary is exactly
`¬ prevWord`). -/
def searchWB (f : List Char → Bool) : Bool → List Char → Bool
  | _, [] => false
  | prevWord, c :: rest =>
    (!prevWord && f (c :: rest)) || searchWB f (isWordChar c) rest

/-- Does the lowercased quantity text match either volume pattern? -/
def quantityVolume (q : List Char) : Bool :=
  searchWB matchVolA false q || searchWB matchVolB false q

/-- Model of `_infer_is_beverage` from `product_normalizer.py`:
`(is_beverage, is_inferred, reason)`, first rule wins. -/
def _infer_is_beverage (op : OFFProduct) : Bool × Bool × String :=
  let per := pyLower (op.nutrition_data_per.getD "")
  if strHasSub per "100ml" then (true, false, "nutrition_data_per=100ml")
  else
    let cats_l := op.categories_tags.map pyLower
    if _BEVERAGE_NEGATIVE.any (fun neg => cats_l.contains neg) then
      (false, false, "categories_negative")
    else if _BEVERAGE_POSITIVE.any (fun pos => cats_l.contains pos) then
      (true, false, "categories_positive")
    else
      let quantity := pyLower (op.quantity.getD "")
      if quantityVolume quantity.data then (true, true, "quantity_ml_l")
      else
        let name := pyLower ((orStr op.product_name
          (orStr op.product_name_en op.generic_name)).getD "")
        let brand := pyLower ((orStr op.brands op.brand_owner).getD "")
        let text := pyStrip (name ++ " " ++ brand)
        if text ≠ "" then
          if _NAME_NEGATIVE.any (fun n => strHasSub text n) then
            (false, true, "name_negative")
          else if _NAME_POSITIVE.any (fun p => strHasSub text p) then
            (true, true, "name_positive")
          else (false, true, "default_solid")
        else (false, true, "default_solid")

/-! ### Normalizer -/

/-- Canonical nutrition profile (per 100 g or 100 ml).  The normalizer and
the local branch of `scan_product` always populate every field. -/
structure NutritionPer100 where
  unit : String
  sugar_g : ℚ
  salt_g : ℚ
  sat_fat_g : ℚ
  protein_g : ℚ
  serving_size : ℚ
deriving DecidableEq

/-- The OpenFoodFacts response payload as consumed by the pipeline
(`{status, code, product}`). -/
structure OFFPayload where
  status : Option String := Option.none
  code : Option String := Option.none
  product : Option OFFProduct := Option.none
deriving DecidableEq

/-- Python `off_payload.get("product") if isinstance(..., dict) else off_payload`:
when there is no `product` sub-object the whole payload is used as the
product, in which case none of the product fields are found except that its
top-level `code` is visible to `.get("code")`. -/
def payloadProduct (p : OFFPayload) : OFFProduct :=
  match p.product with
  | some op => op
  | Option.none => { code := p.code }

/-- Output record of `normalize_openfoodfacts`. -/
structure NormalizedProduct where
  off_code : Option String
  name : String
  brand : Option String
  image_url : Option String
  is_beverage : Bool
  is_beverage_inferred : Bool
  beverage_inference_reason : String
  serving_size_inferred : Bool
  ingredients : List Ingredient
  nutrition_per_100 : NutritionPer100
deriving DecidableEq

/-- Model of `normalize_openfoodfacts` from `product_normalizer.py`. -/
def normalize_openfoodfacts (off_payload : OFFPayload) (barcode : Option String) :
    NormalizedProduct :=
  let op := payloadProduct off_payload
  let nutriments := op.nutriments
  let sugar := _get_nutriment nutriments ["sugars_100g", "sugar_100g", "sugars", "sugar"]
  let salt := _get_nutriment nutriments ["salt_100g", "salt"]
  let sat_fat := _get_nutriment nutriments
    ["saturated-fat_100g", "saturated_fat_100g", "saturated-fat", "saturated_fat"]
  let protein := _get_nutriment nutriments
    ["proteins_100g", "protein_100g", "proteins", "protein"]
  let bev := _infer_is_beverage op
  let is_beverage := bev.1
  let is_bev_inferred := bev.2.1
  let bev_reason := bev.2.2
  let unit := if is_beverage then "ml" else "g"
  let serving0 := pyOrFloat (_parse_serving_size_to_g_or_ml op.serving_size)
    (_parse_serving_size_to_g_or_ml op.nutriments_serving_size)
  let servingPair : ℚ × Bool :=
    match serving0 with
    | Option.none => (if is_beverage then 330 else 100, true)
    | some q => (q, false)
  let name := (orStr op.product_name
    (orStr op.product_name_en op.generic_name)).getD "Unknown Product"
  { off_code := orStr barcode op.code
    name := name
    brand := orStr op.brands op.brand_owner
    image_url := orStr op.image_url op.image_front_url
    is_beverage := is_beverage
    is_beverage_inferred := is_bev_inferred
    beverage_inference_reason := bev_reason
    serving_size_inferred := servingPair.2
    ingredients := _parse_ingredients_as_objects op.ingredients
      op.ingredients_text op.ingredients_text_en
    nutrition_per_100 :=
      { unit := unit
        sugar_g := sugar
        salt_g := salt
        sat_fat_g := sat_fat
        protein_g := protein
        serving_size := servingPair.1 } }

/-! ### Scoring engine (`scanner_service.py`) -/

def WHO_SUGAR_IDEAL : ℚ := 25
def WHO_SUGAR_UPPER : ℚ := 50
def SERVING_SUGAR_THRESHOLD_G : ℚ := 12.5
def SERVING_SUGAR_MULTIPLIER : ℚ := 1
def SERVING_SUGAR_PENALTY_CAP : ℤ := 20
def PROTEIN_BONUS_THRESHOLD_G : ℚ := 3
def PROTEIN_BONUS_MULTIPLIER : ℚ := 1
def PROTEIN_BONUS_CAP : ℤ := 8

/-- Model of `_clamp_score`: `max(0, min(100, int(round(x))))`. -/
def _clamp_score (x : ℚ) : ℤ := max 0 (min 100 (pyRound x))

/-- Model of `_who_sugar_per_serving`.  `nutrition_per_100.get("serving_size", 1.0)
or 1.0` makes a zero serving size fall back to `1.0` (Python `or`
truthiness); the profile always carries the key, so only the `or` matters.
`sugar_g ... or 0` is the identity on a numeric value. -/
def _who_sugar_per_serving (n : NutritionPer100) : ℚ :=
  let serving_size := if n.serving_size = 0 then 1 else n.serving_size
  (n.sugar_g / 100) * serving_size

/-- Model of `_protein_bonus`. -/
def _protein_bonus (n : NutritionPer100) (is_beverage : Bool) : ℚ :=
  if is_beverage then 0
  else if n.protein_g ≤ PROTEIN_BONUS_THRESHOLD_G then 0
  else min (PROTEIN_BONUS_CAP : ℚ)
    (max 0 ((n.protein_g - PROTEIN_BONUS_THRESHOLD_G) * PROTEIN_BONUS_MULTIPLIER))

/-- Running (unrounded) value `penalty_sugar = sugar * sugar_w` of
`_v3_hybrid_score`. -/
def v3_penalty_sugar (n : NutritionPer100) (is_beverage : Bool) : ℚ :=
  n.sugar_g * (if is_beverage then 6 else 5)

/-- Running value `penalty_salt = salt * salt_w`. -/
def v3_penalty_salt (n : NutritionPer100) : ℚ := n.salt_g * 10

/-- Running value `penalty_sat_fat = sat_fat * satfat_w`. -/
def v3_penalty_sat_fat (n : NutritionPer100) : ℚ := n.sat_fat_g * 4

/-- Running value `raw_serving_penalty`. -/
def v3_raw_serving_penalty (n : NutritionPer100) : ℚ :=
  let sps := _who_sugar_per_serving n
  if sps > SERVING_SUGAR_THRESHOLD_G then
    (sps - SERVING_SUGAR_THRESHOLD_G) * SERVING_SUGAR_MULTIPLIER
  else 0

/-- Running value `penalty_serving_sugar`. -/
def v3_penalty_serving_sugar (n : NutritionPer100) : ℚ :=
  min (SERVING_SUGAR_PENALTY_CAP : ℚ) (max 0 (v3_raw_serving_penalty n))

/-- Running value `total_penalty` (the exact, unrounded sum). -/
def v3_total_penalty (n : NutritionPer100) (is_beverage : Bool) : ℚ :=
  v3_penalty_sugar n is_beverage + v3_penalty_salt n + v3_penalty_sat_fat n
    + v3_penalty_serving_sugar n

/-- The `protein_bonus_rule` block of the breakdown. -/
structure ProteinBonusRule where
  threshold_g : ℚ
  multiplier : ℚ
  cap : ℤ
  applies_to : String
deriving DecidableEq

/-- The `serving_penalty_rule` block of the breakdown. -/
structure ServingPenaltyRule where
  threshold_g : ℚ
  multiplier : ℚ
  cap : ℤ
deriving DecidableEq

/-- The reported score breakdown: the four penalty components, the bonus and
the total are reported as `int(round(...))` of the running values. -/
structure ScoreBreakdown where
  version : String
  unit : String
  sugar_g_per_100 : ℚ
  salt_g_per_100 : ℚ
  sat_fat_g_per_100 : ℚ
  protein_g_per_100 : ℚ
  serving_size : ℚ
  sugar_per_serving_g : ℚ
  penalty_sugar : ℤ
  penalty_salt : ℤ
  penalty_sat_fat : ℤ
  penalty_serving_sugar : ℤ
  bonus_protein : ℤ
  total_penalty : ℤ
  final_score : ℤ
  basis : String
  strict_profile : Bool
  protein_bonus_rule : ProteinBonusRule
  serving_penalty_rule : ServingPenaltyRule
deriving DecidableEq

/-- Result of `_v3_hybrid_score`: `{"score": ..., "breakdown": {...}}`. -/
structure ScoreResult where
  score : ℤ
  breakdown : ScoreBreakdown
deriving DecidableEq

/-- Model of `_v3_hybrid_score` from `scanner_service.py`. -/
def _v3_hybrid_score (n : NutritionPer100) (is_beverage : Bool) : ScoreResult :=
  let sugar_per_serving := _who_sugar_per_serving n
  let bonus_protein := _protein_bonus n is_beverage
  let total_penalty := v3_total_penalty n is_beverage
  let final := _clamp_score (100 - total_penalty + bonus_protein)
  { score := final
    breakdown :=
      { version := "v3_hybrid_pro"
        unit := n.unit
        sugar_g_per_100 := n.sugar_g
        salt_g_per_100 := n.salt_g
        sat_fat_g_per_100 := n.sat_fat_g
        protein_g_per_100 := n.protein_g
        serving_size := if n.serving_size = 0 then 1 else n.serving_size
        sugar_per_serving_g := pyRound1 sugar_per_serving
        penalty_sugar := pyRound (v3_penalty_sugar n is_beverage)
        penalty_salt := pyRound (v3_penalty_salt n)
        penalty_sat_fat := pyRound (v3_penalty_sat_fat n)
        penalty_serving_sugar := pyRound (v3_penalty_serving_sugar n)
        bonus_protein := pyRound bonus_protein
        total_penalty := pyRound total_penalty
        final_score := final
        basis := "per_100g_or_100ml + per_serving_sugar + protein_bonus"
        strict_profile := is_beverage
        protein_bonus_rule :=
          ⟨PROTEIN_BONUS_THRESHOLD_G, PROTEIN_BONUS_MULTIPLIER, PROTEIN_BONUS_CAP,
           "solids_only"⟩
        serving_penalty_rule :=
          ⟨SERVING_SUGAR_THRESHOLD_G, SERVING_SUGAR_MULTIPLIER,
           SERVING_SUGAR_PENALTY_CAP⟩ } }

/-- The WHO impact block. -/
structure WHOImpact where
  sugar_per_serving_g : ℚ
  ideal_limit_g : ℚ
  upper_limit_g : ℚ
  percent_of_ideal : ℚ
  percent_of_upper : ℚ
  exceeds_ideal : Bool
  exceeds_upper : Bool
deriving DecidableEq

/-- Model of `_who_sugar_impact` from `scanner_service.py`. -/
def _who_sugar_impact (n : NutritionPer100) : WHOImpact :=
  let sps := _who_sugar_per_serving n
  { sugar_per_serving_g := pyRound1 sps
    ideal_limit_g := WHO_SUGAR_IDEAL
    upper_limit_g := WHO_SUGAR_UPPER
    percent_of_ideal := pyRound1 ((sps / WHO_SUGAR_IDEAL) * 100)
    percent_of_upper := pyRound1 ((sps / WHO_SUGAR_UPPER) * 100)
    exceeds_ideal := decide (sps > WHO_SUGAR_IDEAL)
    exceeds_upper := decide (sps > WHO_SUGAR_UPPER) }

/-! ### Data quality -/

/-- The data-quality block. -/
structure DataQuality where
  source : String
  nutrition_fields_present : List String
  missing_fields : List String
  nutrition_complete : Bool
  ingredients_available : Bool
  serving_size_inferred : Bool
  is_beverage : Bool
  is_beverage_inferred : Bool
  beverage_inference_reason : Option String
  confidence : String
deriving DecidableEq

/-- Model of `_build_data_quality` from `scanner_service.py`.  The source reads
`nutrition_per_100.get(f)` for the three required fields; those three
looked-up values are passed here explicitly (`none` models an absent key or
a `None` value).  Both call sites pass the canonical profile, which always
carries all three keys with float values, so both always pass `some _`.
The ingredient list only contributes its length, so its element type is a
parameter (the two call sites pass differently-shaped lists). -/
def _build_data_quality {α : Type} (source : String)
    (sugar_v salt_v sat_fat_v : Option ℚ) (ingredients : List α)
    (serving_size_inferred is_beverage_inferred is_beverage : Bool)
    (beverage_reason : Option String) : DataQuality :=
  let fields : List (String × Option ℚ) :=
    [("sugar_g", sugar_v), ("salt_g", salt_v), ("sat_fat_g", sat_fat_v)]
  let present := (fields.filter (fun kv => kv.2.isSome)).map Prod.fst
  let missing := (fields.filter (fun kv => kv.2.isNone)).map Prod.fst
  let nutrition_complete := missing.isEmpty
  let ingredients_available := !ingredients.isEmpty
  let confidence :=
    if source = "local" then "high"
    else if nutrition_complete && ingredients_available then "high"
    else if nutrition_complete then "medium"
    else "low"
  { source := source
    nutrition_fields_present := present
    missing_fields := missing
    nutrition_complete := nutrition_complete
    ingredients_available := ingredients_available
    serving_size_inferred := serving_size_inferred
    is_beverage := is_beverage
    is_beverage_inferred := is_beverage_inferred
    beverage_inference_reason := beverage_reason
    confidence := confidence }

/-! ### Explanation generator -/

/-- Left-pad a numeral string with zeros to `w` digits. -/
def padZeros (w : ℕ) (s : String) : String :=
  ⟨List.replicate (w - s.length) '0'⟩ ++ s

/-- Python `f"{q:.nd f}"` fixed-point formatting, modelled with half-even
rounding at the last kept decimal (the ties produced by exactly-representable
inputs; no claim depends on the formatted digits). -/
def fmtFixed (nd : ℕ) (q : ℚ) : String :=
  let scaled : ℤ := pyRound (q * ((10 : ℚ) ^ nd))
  let sign := if scaled < 0 then "-" else ""
  let a := scaled.natAbs
  if nd = 0 then sign ++ toString a
  else sign ++ toString (a / 10 ^ nd) ++ "." ++ padZeros nd (toString (a % 10 ^ nd))

/-- The explanation output `{"why_this_score": [...], "tips": [...]}`. -/
structure Explain where
  why_this_score : List String
  tips : List String
deriving DecidableEq

/-- Model of `_why_this_score` from `scanner_service.py`.  The sequential
`why.append` / `tips.append` calls are modelled as a concatenation of
conditional segments in the same order.  `int(breakdown.get(...) or 0)` and
`float(who.get(...) or 0)` are the identity on the values the pipeline puts
there. -/
def _why_this_score (n : NutritionPer100) (b : ScoreBreakdown) (w : WHOImpact)
    (q : DataQuality) : Explain :=
  let unit := n.unit
  let is_bev := q.is_beverage
  let sugar_100 := n.sugar_g
  let salt_100 := n.salt_g
  let sat_100 := n.sat_fat_g
  let protein_100 := n.protein_g
  let serving := if n.serving_size = 0 then 1 else n.serving_size
  let sugar_serv := w.sugar_per_serving_g
  let bonus_pro := b.bonus_protein
  let pen_serv := b.penalty_serving_sugar
  let strict := b.strict_profile
  let pct_ideal := w.percent_of_ideal
  let pct_upper := w.percent_of_upper
  let why : List String :=
    (if is_bev then
      ["Είναι ρόφημα → εφαρμόζεται αυστηρότερο προφίλ για ζάχαρη (strict profile)."]
     else []) ++
    (if strict && !is_bev then ["Ενεργοποιήθηκε strict profile."] else []) ++
    ["Ζάχαρη ανά 100" ++ unit ++ ": " ++ fmtFixed 1 sugar_100 ++ " g"] ++
    (if sat_100 > 0 then
      ["Κορεσμένα λιπαρά ανά 100" ++ unit ++ ": " ++ fmtFixed 1 sat_100 ++ " g"]
     else []) ++
    (if salt_100 > 0 then
      ["Αλάτι ανά 100" ++ unit ++ ": " ++ fmtFixed 2 salt_100 ++ " g"]
     else []) ++
    (if serving > 1 then
      ["Μερίδα: " ++ fmtFixed 0 serving ++ unit ++ " → ζάχαρη ανά μερίδα: "
        ++ fmtFixed 1 sugar_serv ++ " g"]
     else if sugar_serv > 0 then
      ["Ζάχαρη ανά μερίδα: " ++ fmtFixed 1 sugar_serv ++ " g"]
     else []) ++
    (if pen_serv > 0 then
      ["Extra ποινή μερίδας: +" ++ toString pen_serv ++ " (υψηλή ζάχαρη ανά μερίδα)"]
     else []) ++
    (if bonus_pro > 0 then
      ["Protein bonus: +" ++ toString bonus_pro ++ " (πρωτεΐνη "
        ++ fmtFixed 1 protein_100 ++ " g/100" ++ unit ++ ")"]
     else []) ++
    (if sugar_serv > 0 then
      ["WHO sugar impact: " ++ fmtFixed 0 pct_ideal ++ "% του ιδανικού (25g) / "
        ++ fmtFixed 0 pct_upper ++ "% του upper (50g)"]
     else [])
  let tips : List String :=
    (if q.serving_size_inferred then
      ["Το μέγεθος μερίδας εκτιμήθηκε (δεν υπήρχε καθαρό serving size στο προϊόν)."]
     else []) ++
    (match q.beverage_inference_reason with
     | some s => if s ≠ "" then ["Beverage detection reason: " ++ s] else []
     | Option.none => []) ++
    (if is_bev && sugar_100 ≥ 5 then
      ["Tip: για ροφήματα, η ζάχαρη ανεβαίνει γρήγορα ανά μερίδα—έλεγξε και τις \x27χωρίς ζάχαρη\x27 επιλογές."]
     else []) ++
    (if !is_bev && sat_100 ≥ 5 then
      ["Tip: αν σε νοιάζει η καρδιαγγειακή υγεία, σύγκρινε και τα κορεσμένα λιπαρά ανά 100g."]
     else [])
  ⟨why, tips⟩

/-! ### Scan pipeline -/

/-- A record of the local product catalog (`products.json`), per the shape
the local branch of `scan_product` reads. -/
structure LocalNutrients where
  sugar : Option ℚ := Option.none
  salt : Option ℚ := Option.none
  fat : Option ℚ := Option.none
  protein : Option ℚ := Option.none
deriving DecidableEq

structure LocalProduct where
  name : Option String := Option.none
  brand : Option String := Option.none
  image_url : Option String := Option.none
  is_beverage : Bool := false
  serving_size : Option ℚ := Option.none
  nutrients : LocalNutrients := {}
  ingredients : List IngEntry := []
deriving DecidableEq

/-- Python `float(nutrients.get(k, 0) or 0)`: absent becomes `0.0`; the `or` is the
identity on a numeric value (`0 or 0` is `0`); negative values pass through
unclamped. -/
def localNutrientVal : Option ℚ → ℚ
  | Option.none => 0
  | some q => q

/-- Python `float(product.get("serving_size", 1.0) or 1.0)`: absent or zero becomes
`1.0`. -/
def localServingSize : Option ℚ → ℚ
  | Option.none => 1
  | some q => if q = 0 then 1 else q

/-- The canonical profile built inline by the local branch of
`scan_product` (lines 292–299). -/
def localNutritionPer100 (product : LocalProduct) : NutritionPer100 :=
  { unit := if product.is_beverage then "ml" else "g"
    sugar_g := localNutrientVal product.nutrients.sugar
    salt_g := localNutrientVal product.nutrients.salt
    sat_fat_g := localNutrientVal product.nutrients.fat
    protein_g := localNutrientVal product.nutrients.protein
    serving_size := localServingSize product.serving_size }

/-- Model of `OFFResult` from `openfoodfacts_service.py` (the fetch outcome
`scan_product` awaits).  An empty payload dict is falsy in
`off.ok and off.payload` and is modelled as `none`. -/
structure OFFResult where
  ok : Bool
  status : ℤ
  payload : Option OFFPayload := Option.none
  error : Option String := Option.none
deriving DecidableEq

/-- The ingredient list carried in the scan output: the local branch passes
the raw catalog entries through, the remote branch passes the parsed
objects. -/
inductive IngOut where
  | ofLocal (l : List IngEntry)
  | ofParsed (l : List Ingredient)
deriving DecidableEq

/-- A successful scan response body (either branch; the local branch keys
its identifier `product_id`, the remote branch `off_code` — both are
carried in `ident`). -/
structure ScanOutput where
  source : String
  matched_by : String
  ident : Option String
  name : String
  brand : Option String
  image_url : Option String
  alerts : List String
  ingredients : IngOut
  nutrition_per_100 : NutritionPer100
  vitascore : ℤ
  vitascore_version : String
  vitascore_breakdown : ScoreBreakdown
  who_impact : WHOImpact
  data_quality : DataQuality
  why_this_score : List String
  tips : List String
deriving DecidableEq

/-- The scan outcome: the `{"error": "Product not found"}` terminal result,
or a full response body. -/
inductive ScanResult where
  | notFound
  | found (out : ScanOutput)
deriving DecidableEq

/-- The response body built by the local branch of `scan_product`
(lines 288–332 of `scanner_service.py`). -/
def localScanOutput (pid : String) (rasff_alerts : List String)
    (product : LocalProduct) : ScanOutput :=
  let is_beverage := product.is_beverage
  let nutrition_per_100 := localNutritionPer100 product
  let v := _v3_hybrid_score nutrition_per_100 is_beverage
  let who := _who_sugar_impact nutrition_per_100
  let quality := _build_data_quality "local" (some nutrition_per_100.sugar_g)
    (some nutrition_per_100.salt_g) (some nutrition_per_100.sat_fat_g)
    product.ingredients false false is_beverage (some "local_flag")
  let explain := _why_this_score nutrition_per_100 v.breakdown who quality
  { source := "local"
    matched_by := "local_id"
    ident := some pid
    name := product.name.getD "Unknown Product"
    brand := product.brand
    image_url := product.image_url
    alerts := rasff_alerts
    ingredients := .ofLocal product.ingredients
    nutrition_per_100 := nutrition_per_100
    vitascore := v.score
    vitascore_version := "v3_hybrid_pro"
    vitascore_breakdown := v.breakdown
    who_impact := who
    data_quality := quality
    why_this_score := explain.why_this_score
    tips := explain.tips }

/-- The response body built by the remote branch of `scan_product`
(lines 334–374 of `scanner_service.py`). -/
def remoteScanOutput (pid : String) (rasff_alerts : List String)
    (payload : OFFPayload) : ScanOutput :=
  let normalized := normalize_openfoodfacts payload (some pid)
  let nutrition_per_100 := normalized.nutrition_per_100
  let ingredients := normalized.ingredients
  let is_beverage := normalized.is_beverage
  let v := _v3_hybrid_score nutrition_per_100 is_beverage
  let who := _who_sugar_impact nutrition_per_100
  let quality := _build_data_quality "openfoodfacts"
    (some nutrition_per_100.sugar_g) (some nutrition_per_100.salt_g)
    (some nutrition_per_100.sat_fat_g) ingredients
    normalized.serving_size_inferred normalized.is_beverage_inferred
    is_beverage (some normalized.beverage_inference_reason)
  let explain := _why_this_score nutrition_per_100 v.breakdown who quality
  { source := "openfoodfacts"
    matched_by := "barcode_or_key"
    ident := some ((orStr normalized.off_code (some pid)).getD "")
    name := normalized.name
    brand := normalized.brand
    image_url := normalized.image_url
    alerts := rasff_alerts
    ingredients := .ofParsed ingredients
    nutrition_per_100 := nutrition_per_100
    vitascore := v.score
    vitascore_version := "v3_hybrid_pro"
    vitascore_breakdown := v.breakdown
    who_impact := who
    data_quality := quality
    why_this_score := explain.why_this_score
    tips := explain.tips }

/-- Model of `scan_product` from `scanner_service.py`.  The two process-wide lookup
tables and the awaited remote-fetch outcome for this id are passed as
explicit parameters (the function is otherwise pure).  The Python
`if product:` / `off.ok and off.payload` truthiness tests become the
`Option` matches (an empty payload dict is falsy and is modelled as
`none`). -/
def scan_product (products_db : String → Option LocalProduct)
    (rasff_db : String → Option (List String)) (off : OFFResult)
    (product_id : String) : ScanResult :=
  let pid := pyStrip product_id
  let rasff_alerts := (rasff_db pid).getD []
  match products_db pid with
  | some product => .found (localScanOutput pid rasff_alerts product)
  | Option.none =>
    if off.ok then
      match off.payload with
      | some payload => .found (remoteScanOutput pid rasff_alerts payload)
      | Option.none => .notFound
    else .notFound

/-! ### Helper projections on scan results -/

/-- Data-quality block of a scan result, when the scan succeeded. -/
def scanQuality : ScanResult → Option DataQuality
  | .notFound => Option.none
  | .found out => some out.data_quality

/-- Canonical profile of a scan result, when the scan succeeded. -/
def scanProfile : ScanResult → Option NutritionPer100
  | .notFound => Option.none
  | .found out => some out.nutrition_per_100

/-- Tips sequence of a scan result (`[]` for the not-found result). -/
def scanTips : ScanResult → List String
  | .notFound => []
  | .found out => out.tips

/-! ### Helper lemmas -/

/-- A digit or a decimal point (the characters a captured number group of
the serving-size regex can contain). -/
def numChar (c : Char) : Bool := c.isDigit || c = '.'

theorem mem_stripChars {c : Char} {l : List Char} (h : c ∈ stripChars l) :
    c ∈ l := by
  unfold stripChars at h
  rw [List.mem_reverse] at h
  have h1 : c ∈ (l.dropWhile pyIsSpace).reverse := List.dropWhile_subset _ h
  rw [List.mem_reverse] at h1
  exact List.dropWhile_subset _ h1

theorem _get_nutriment_nonneg (nutriments : List (String × PyVal))
    (keys : List String) : 0 ≤ _get_nutriment nutriments keys := by
  induction keys with
  | nil => exact le_refl 0
  | cons k rest ih =>
    rcases h : nutriments.find? (fun kv => kv.1 = k) with _ | kv
    · simpa [_get_nutriment, h] using ih
    · rcases h2 : _to_float kv.2 with _ | v
      · simpa [_get_nutriment, h, h2] using ih
      · simp [_get_nutriment, h, h2, _clamp_nonneg]

theorem parseFloatCore_nonneg {cs : List Char} {q : ℚ}
    (h : parseFloatCore cs = some q) : 0 ≤ q := by
  simp only [parseFloatCore] at h
  split at h
  · exact absurd h (by simp)
  · split at h
    · cases h
      positivity
    · split at h
      · exact absurd h (by simp)
      · cases h
        positivity
    · split at h
      · exact absurd h (by simp)
      · cases h
        positivity
    · exact absurd h (by simp)

theorem parseFloatChars_nonneg {cs : List Char} {q : ℚ}
    (hall : ∀ c ∈ cs, numChar c) (h : parseFloatChars cs = some q) : 0 ≤ q := by
  rw [parseFloatChars.eq_def] at h
  split at h
  · rename_i r
    have := hall '-' (by simp)
    simp [numChar] at this
  · exact parseFloatCore_nonneg h
  · exact parseFloatCore_nonneg h

theorem toFloat_str_nonneg {l : List Char} {q : ℚ}
    (hl : ∀ c ∈ l, numChar c) (h : _to_float (.str ⟨l⟩) = some q) : 0 ≤ q := by
  simp only [_to_float] at h
  split at h
  · exact absurd h (by simp)
  · refine parseFloatChars_nonneg ?_ h
    intro c hc
    obtain ⟨d, hd, rfl⟩ := List.mem_map.1 hc
    have hnd := hl d (mem_stripChars hd)
    by_cases hdc : d = ','
    · simp [hdc, numChar]
    · simpa [hdc] using hnd

theorem numChar_of_digit {c : Char} (h : c.isDigit = true) : numChar c = true := by
  simp [numChar, h]

theorem matchNumber_numChars {cs : List Char} {p : List Char × List Char}
    (h : matchNumber cs = some p) : ∀ c ∈ p.1, numChar c := by
  simp only [matchNumber] at h
  split at h
  · exact absurd h (by simp)
  · rename_i hds
    split at h
    · split at h
      · cases h
        intro c hc
        exact numChar_of_digit (List.mem_takeWhile_imp hc)
      · cases h
        intro c hc
        rcases List.mem_append.1 hc with h1 | h1
        · exact numChar_of_digit (List.mem_takeWhile_imp h1)
        · rcases List.mem_cons.1 h1 with h2 | h2
          · simp [h2, numChar]
          · exact numChar_of_digit (List.mem_takeWhile_imp h2)
    · cases h
      intro c hc
      exact numChar_of_digit (List.mem_takeWhile_imp hc)

theorem matchPat1At_numChars {cs : List Char} {m : List Char × List Char}
    (h : matchPat1At cs = some m) : ∀ c ∈ m.1, numChar c := by
  simp only [matchPat1At] at h
  split at h
  · exact absurd h (by simp)
  · rename_i nr hnr
    split at h
    · exact absurd h (by simp)
    · cases h
      intro c hc
      exact matchNumber_numChars hnr c hc

theorem matchPat2At_numChars {cs : List Char} {m : List Char × List Char}
    (h : matchPat2At cs = some m) : ∀ c ∈ m.1, numChar c := by
  simp only [matchPat2At] at h
  split at h
  · rename_i r
    split at h
    · rename_i nr hnr
      split at h
      · cases h
        intro c hc
        exact matchNumber_numChars hnr c hc
      · exact absurd h (by simp)
    · exact absurd h (by simp)
  · exact absurd h (by simp)

theorem searchPat1_numChars {cs : List Char} {g : List Char × List Char}
    (h : searchPat1 cs = some g) : ∀ c ∈ g.1, numChar c := by
  induction cs with
  | nil => simp [searchPat1] at h
  | cons a rest ih =>
    rw [searchPat1] at h
    rcases hm : matchPat1At (a :: rest) with _ | m
    · rw [hm] at h
      exact ih h
    · rw [hm] at h
      cases h
      exact matchPat1At_numChars hm

theorem searchPat2_numChars {cs : List Char} {g : List Char × List Char}
    (h : searchPat2 cs = some g) : ∀ c ∈ g.1, numChar c := by
  induction cs with
  | nil => simp [searchPat2] at h
  | cons a rest ih =>
    rw [searchPat2] at h
    rcases hm : matchPat2At (a :: rest) with _ | m
    · rw [hm] at h
      exact ih h
    · rw [hm] at h
      cases h
      exact matchPat2At_numChars hm

/-- Every value the serving-size parser resolves is non-negative: the
captured number group has no sign. -/
theorem parse_serving_nonneg {s : Option String} {q : ℚ}
    (h : _parse_serving_size_to_g_or_ml s = some q) : 0 ≤ q := by
  rcases s with _ | s0
  · simp [_parse_serving_size_to_g_or_ml] at h
  · simp only [_parse_serving_size_to_g_or_ml] at h
    split at h
    · exact absurd h (by simp)
    · split at h
      · exact absurd h (by simp)
      · rename_i g hg
        have hnum : ∀ c ∈ g.1, numChar c := by
          rcases hs1 : searchPat1 (stripChars (pyLower s0).data) with _ | g1
          · rcases hs2 : searchPat2 (stripChars (pyLower s0).data) with _ | g2
            · rw [hs1, hs2] at hg
              exact absurd hg (by simp)
            · rw [hs1, hs2] at hg
              cases hg
              exact searchPat2_numChars hs2
          · rw [hs1] at hg
            cases hg
            exact searchPat1_numChars hs1
        split at h
        · exact absurd h (by simp)
        · rename_i qty hqty
          have hq : 0 ≤ qty := toFloat_str_nonneg hnum hqty
          split at h
          · cases h
            exact hq
          · split at h
            · cases h
              exact hq
            · split at h
              · cases h
                positivity
              · split at h
                · cases h
                  positivity
                · exact absurd h (by simp)

theorem pyOrFloat_some {a b : Option ℚ} {q : ℚ} (h : pyOrFloat a b = some q) :
    a = some q ∨ b = some q := by
  rcases a with _ | x
  · exact Or.inr h
  · by_cases hx : x = 0
    · simp only [pyOrFloat, hx, if_pos rfl] at h
      exact Or.inr h
    · simp only [pyOrFloat, if_neg hx] at h
      exact Or.inl h

/-! ### Concrete fixtures -/

/-- A solid profile whose three unrounded penalties are each `0.4`:
`sugar_g = 0.08`, `salt_g = 0.04`, `sat_fat_g = 0.1`. -/
def c1Profile : NutritionPer100 := ⟨"g", 2/25, 1/25, 1/10, 0, 100⟩

/-- Scan scenario A of the spec: solid, complete data. -/
def c3Profile : NutritionPer100 := ⟨"g", 6, 1/2, 1, 10, 200⟩

/-- A payload whose product carries a per-100ml declaration together with
conflicting solid signals on every later tier. -/
def c4Product : OFFProduct :=
  { nutrition_data_per := some "100ml"
    categories_tags := ["en:yogurts"]
    quantity := some "500 g"
    product_name := some "Greek Yogurt"
    brands := some "Creamy Farm" }

def c10Solid : NutritionPer100 := ⟨"g", 1, 1, 1, 1, 100⟩

def c10SolidMl : NutritionPer100 := ⟨"ml", 1, 1, 1, 1, 100⟩

/-! ### Claims -/

/-- C1: the claim reads the reported breakdown fields; in the reported
breakdown each component and the total are rounded separately
(`int(round(...))`), so the reported `total_penalty` need not equal the sum
of the four reported components.  At `c1Profile` (solid) the components are
each `0.4` and round to `0`, while their exact sum `1.2` rounds to `1`. -/
theorem C1_counterexample :
    ¬ ((_v3_hybrid_score c1Profile false).breakdown.total_penalty =
      (_v3_hybrid_score c1Profile false).breakdown.penalty_sugar
      + (_v3_hybrid_score c1Profile false).breakdown.penalty_salt
      + (_v3_hybrid_score c1Profile false).breakdown.penalty_sat_fat
      + (_v3_hybrid_score c1Profile false).breakdown.penalty_serving_sugar) := by
  with_unfolding_all decide

/-- C1 (amended): in every score breakdown the *unrounded running*
`total_penalty` is the exact sum of the four unrounded penalty components,
and every reported field is the half-even rounding of its running value —
in particular the reported `total_penalty` is the rounding of the exact sum,
not the sum of the four reported (individually rounded) components. -/
theorem C1_amended (n : NutritionPer100) (is_beverage : Bool) :
    v3_total_penalty n is_beverage
      = v3_penalty_sugar n is_beverage + v3_penalty_salt n + v3_penalty_sat_fat n
        + v3_penalty_serving_sugar n
    ∧ (_v3_hybrid_score n is_beverage).breakdown.total_penalty
      = pyRound (v3_total_penalty n is_beverage)
    ∧ (_v3_hybrid_score n is_beverage).breakdown.penalty_sugar
      = pyRound (v3_penalty_sugar n is_beverage)
    ∧ (_v3_hybrid_score n is_beverage).breakdown.penalty_salt
      = pyRound (v3_penalty_salt n)
    ∧ (_v3_hybrid_score n is_beverage).breakdown.penalty_sat_fat
      = pyRound (v3_penalty_sat_fat n)
    ∧ (_v3_hybrid_score n is_beverage).breakdown.penalty_serving_sugar
      = pyRound (v3_penalty_serving_sugar n) :=
  ⟨rfl, rfl, rfl, rfl, rfl, rfl⟩

/-- C2: for every nutrition profile and beverage flag the final score is an
integer (the model types it in `ℤ`) with `0 ≤ final_score ≤ 100`, and it
equals `clamp(round(100 − total_penalty + bonus_protein), 0, 100)` where
`total_penalty` and `bonus_protein` are the unrounded running values.
Proved with no non-negativity hypothesis, which subsumes the claim. -/
theorem C2_clamp_formula (n : NutritionPer100) (is_beverage : Bool) :
    0 ≤ (_v3_hybrid_score n is_beverage).score
    ∧ (_v3_hybrid_score n is_beverage).score ≤ 100
    ∧ (_v3_hybrid_score n is_beverage).score
      = max 0 (min 100 (pyRound
          (100 - v3_total_penalty n is_beverage + _protein_bonus n is_beverage))) :=
  ⟨le_max_left 0 _, max_le (by norm_num) (min_le_left _ _), rfl⟩

/-- C3: scan scenario A — solid with `sugar=6, salt=0.5, sat_fat=1,
protein=10, serving=200` yields the reported values
`penalty_sugar=30, penalty_salt=5, penalty_sat_fat=4, sugar_per_serving=12.0,
penalty_serving_sugar=0, bonus_protein=7, total_penalty=39, final_score=68`. -/
theorem C3_scenarioA :
    (_v3_hybrid_score c3Profile false).breakdown.penalty_sugar = 30
    ∧ (_v3_hybrid_score c3Profile false).breakdown.penalty_salt = 5
    ∧ (_v3_hybrid_score c3Profile false).breakdown.penalty_sat_fat = 4
    ∧ (_v3_hybrid_score c3Profile false).breakdown.sugar_per_serving_g = 12
    ∧ (_v3_hybrid_score c3Profile false).breakdown.penalty_serving_sugar = 0
    ∧ (_v3_hybrid_score c3Profile false).breakdown.bonus_protein = 7
    ∧ (_v3_hybrid_score c3Profile false).breakdown.total_penalty = 39
    ∧ (_v3_hybrid_score c3Profile false).breakdown.final_score = 68
    ∧ (_v3_hybrid_score c3Profile false).score = 68 := by
  with_unfolding_all decide

/-- C4: whenever the payload declares nutrition per 100 ml (the tier-1 test
`"100ml" in str(nutrition_data_per or "").lower()`), the classifier returns
beverage, not inferred, with the per-100ml reason — whatever the category
tags, quantity text, and name/brand keywords say. -/
theorem C4_per100ml_priority (op : OFFProduct)
    (h : strHasSub (pyLower (op.nutrition_data_per.getD "")) "100ml" = true) :
    _infer_is_beverage op = (true, false, "nutrition_data_per=100ml") := by
  simp only [_infer_is_beverage, h, if_true]

theorem C4_witness :
    strHasSub (pyLower (c4Product.nutrition_data_per.getD "")) "100ml" = true
    ∧ _infer_is_beverage c4Product = (true, false, "nutrition_data_per=100ml") :=
  ⟨by with_unfolding_all decide,
   C4_per100ml_priority c4Product (by with_unfolding_all decide)⟩

/-- C10: the final integer score depends only on the five numeric profile
fields and the beverage flag: two profiles agreeing on those yield the same
score, whatever the `unit` field (and the score reads nothing else). -/
theorem C10_score_determinism (p1 p2 : NutritionPer100) (is_beverage : Bool)
    (h1 : p1.sugar_g = p2.sugar_g) (h2 : p1.salt_g = p2.salt_g)
    (h3 : p1.sat_fat_g = p2.sat_fat_g) (h4 : p1.protein_g = p2.protein_g)
    (h5 : p1.serving_size = p2.serving_size) :
    (_v3_hybrid_score p1 is_beverage).score = (_v3_hybrid_score p2 is_beverage).score := by
  have ht : v3_total_penalty p1 is_beverage = v3_total_penalty p2 is_beverage := by
    simp only [v3_total_penalty, v3_penalty_sugar, v3_penalty_salt, v3_penalty_sat_fat,
      v3_penalty_serving_sugar, v3_raw_serving_penalty, _who_sugar_per_serving,
      h1, h2, h3, h5]
  have hb : _protein_bonus p1 is_beverage = _protein_bonus p2 is_beverage := by
    simp only [_protein_bonus, h4]
  have e1 : (_v3_hybrid_score p1 is_beverage).score
      = _clamp_score (100 - v3_total_penalty p1 is_beverage + _protein_bonus p1 is_beverage) :=
    rfl
  have e2 : (_v3_hybrid_score p2 is_beverage).score
      = _clamp_score (100 - v3_total_penalty p2 is_beverage + _protein_bonus p2 is_beverage) :=
    rfl
  rw [e1, e2, ht, hb]

theorem C10_witness :
    (_v3_hybrid_score c10Solid false).score = (_v3_hybrid_score c10SolidMl false).score :=
  C10_score_determinism c10Solid c10SolidMl false rfl rfl rfl rfl rfl

/-! ### Fixtures for the pipeline-level claims -/

/-- A local catalog record carrying a negative sugar value. -/
def badLocalProduct : LocalProduct := { nutrients := { sugar := some (-1) } }

def badLocalDb : String → Option LocalProduct :=
  fun s => if s = "p1" then some badLocalProduct else Option.none

def emptyDb : String → Option LocalProduct := fun _ => Option.none

def emptyRasff : String → Option (List String) := fun _ => Option.none

/-- A failed remote fetch. -/
def failFetch : OFFResult :=
  { ok := false, status := 504, error := some "OpenFoodFacts timeout" }

/-- A product sub-object with no recognized field at all. -/
def emptyOFFProduct : OFFProduct := {}

/-- A payload whose product has no nutrient keys and no ingredients. -/
def emptyProductPayload : OFFPayload := { product := some emptyOFFProduct }

/-- A successful fetch returning `emptyProductPayload`. -/
def okEmptyFetch : OFFResult :=
  { ok := true, status := 200, payload := some emptyProductPayload }

/-- A payload with an unparseable serving-size text. -/
def c7Payload : OFFPayload :=
  { product := some { serving_size := some "about one cup" } }

/-- C5 — every canonical profile is claimed to be non-negative with negative
source inputs clamped to 0.  The clamping (`_clamp_nonneg`) only exists on
the remote parsing path; the local branch coerces
`float(nutrients.get(k, 0) or 0)` with no clamp, so a negative local value
passes straight into the profile (and into the scan output). -/
theorem C5_counterexample :
    (localNutritionPer100 badLocalProduct).sugar_g < 0
    ∧ (scanProfile (scan_product badLocalDb emptyRasff failFetch "p1")).map
        NutritionPer100.sugar_g = some (-1) := by
  with_unfolding_all decide

/-- C5 (amended): every remote-normalized profile has all four nutrient
fields and the serving size present and non-negative (negative source
values clamped by `_clamp_nonneg`, unresolvable servings defaulted), and
`unit` is `"g"` or `"ml"`; a local-branch profile likewise always has every
field and a two-valued unit, and is non-negative provided the trusted local
record stores no negative value (the local branch does not clamp). -/
theorem C5_profile_invariant (payload : OFFPayload) (barcode : Option String)
    (product : LocalProduct)
    (hsu : ∀ x, product.nutrients.sugar = some x → 0 ≤ x)
    (hsa : ∀ x, product.nutrients.salt = some x → 0 ≤ x)
    (hfa : ∀ x, product.nutrients.fat = some x → 0 ≤ x)
    (hpr : ∀ x, product.nutrients.protein = some x → 0 ≤ x)
    (hse : ∀ x, product.serving_size = some x → 0 ≤ x) :
    (0 ≤ (normalize_openfoodfacts payload barcode).nutrition_per_100.sugar_g
      ∧ 0 ≤ (normalize_openfoodfacts payload barcode).nutrition_per_100.salt_g
      ∧ 0 ≤ (normalize_openfoodfacts payload barcode).nutrition_per_100.sat_fat_g
      ∧ 0 ≤ (normalize_openfoodfacts payload barcode).nutrition_per_100.protein_g
      ∧ 0 ≤ (normalize_openfoodfacts payload barcode).nutrition_per_100.serving_size
      ∧ ((normalize_openfoodfacts payload barcode).nutrition_per_100.unit = "g"
          ∨ (normalize_openfoodfacts payload barcode).nutrition_per_100.unit = "ml"))
    ∧ (0 ≤ (localNutritionPer100 product).sugar_g
      ∧ 0 ≤ (localNutritionPer100 product).salt_g
      ∧ 0 ≤ (localNutritionPer100 product).sat_fat_g
      ∧ 0 ≤ (localNutritionPer100 product).protein_g
      ∧ 0 ≤ (localNutritionPer100 product).serving_size
      ∧ ((localNutritionPer100 product).unit = "g"
          ∨ (localNutritionPer100 product).unit = "ml")) := by
  constructor
  · refine ⟨_get_nutriment_nonneg _ _, _get_nutriment_nonneg _ _,
      _get_nutriment_nonneg _ _, _get_nutriment_nonneg _ _, ?_, ?_⟩
    · have e : (normalize_openfoodfacts payload barcode).nutrition_per_100.serving_size
          = (match pyOrFloat
              (_parse_serving_size_to_g_or_ml (payloadProduct payload).serving_size)
              (_parse_serving_size_to_g_or_ml (payloadProduct payload).nutriments_serving_size)
             with
             | Option.none =>
               ((if (_infer_is_beverage (payloadProduct payload)).1 then (330 : ℚ) else 100),
                 true)
             | some q => (q, false)).1 := rfl
      rw [e]
      rcases hso : pyOrFloat
          (_parse_serving_size_to_g_or_ml (payloadProduct payload).serving_size)
          (_parse_serving_size_to_g_or_ml (payloadProduct payload).nutriments_serving_size)
        with _ | qv
      · by_cases hb : (_infer_is_beverage (payloadProduct payload)).1 <;> simp [hb]
      · rcases pyOrFloat_some hso with hp | hp <;>
          simpa using parse_serving_nonneg hp
    · have e : (normalize_openfoodfacts payload barcode).nutrition_per_100.unit
          = (if (_infer_is_beverage (payloadProduct payload)).1 then "ml" else "g") := rfl
      rw [e]
      by_cases hb : (_infer_is_beverage (payloadProduct payload)).1 <;> simp [hb]
  · refine ⟨?_, ?_, ?_, ?_, ?_, ?_⟩
    · rcases h : product.nutrients.sugar with _ | x
      · simp [localNutritionPer100, localNutrientVal, h]
      · simpa [localNutritionPer100, localNutrientVal, h] using hsu x h
    · rcases h : product.nutrients.salt with _ | x
      · simp [localNutritionPer100, localNutrientVal, h]
      · simpa [localNutritionPer100, localNutrientVal, h] using hsa x h
    · rcases h : product.nutrients.fat with _ | x
      · simp [localNutritionPer100, localNutrientVal, h]
      · simpa [localNutritionPer100, localNutrientVal, h] using hfa x h
    · rcases h : product.nutrients.protein with _ | x
      · simp [localNutritionPer100, localNutrientVal, h]
      · simpa [localNutritionPer100, localNutrientVal, h] using hpr x h
    · rcases h : product.serving_size with _ | x
      · simp [localNutritionPer100, localServingSize, h]
      · by_cases hx : x = 0
        · simp [localNutritionPer100, localServingSize, h, hx]
        · simpa [localNutritionPer100, localServingSize, h, hx] using hse x h
    · by_cases hb : product.is_beverage <;> simp [localNutritionPer100, hb]

theorem C5_witness :
    0 ≤ (normalize_openfoodfacts emptyProductPayload Option.none).nutrition_per_100.sugar_g
    ∧ 0 ≤ (localNutritionPer100 {}).sugar_g :=
  ⟨(C5_profile_invariant emptyProductPayload Option.none {}
      (fun x h => by cases h) (fun x h => by cases h) (fun x h => by cases h)
      (fun x h => by cases h) (fun x h => by cases h)).1.1,
   (C5_profile_invariant emptyProductPayload Option.none {}
      (fun x h => by cases h) (fun x h => by cases h) (fun x h => by cases h)
      (fun x h => by cases h) (fun x h => by cases h)).2.1⟩

/-- C6 — the claim (and the spec) say a remote payload with no parseable
sugar/salt/sat-fat and no ingredients gets confidence `"low"`.  The code
disagrees: `normalize_openfoodfacts` defaults every missing nutrient to
`0.0`, so the canonical profile always carries all three keys, the
`is not None` presence check in `_build_data_quality` always passes,
`nutrition_complete` is always true, and the empty-payload scan reports
`"medium"` (the `"low"` arm is unreachable from the pipeline).  This
evaluates the code at the failing input. -/
theorem C6_missing_fields_medium :
    (scanQuality (scan_product emptyDb emptyRasff okEmptyFetch "0000")).map
        DataQuality.confidence = some "medium"
    ∧ (scanQuality (scan_product emptyDb emptyRasff okEmptyFetch "0000")).map
        DataQuality.nutrition_complete = some true
    ∧ (scanQuality (scan_product emptyDb emptyRasff okEmptyFetch "0000")).map
        DataQuality.ingredients_available = some false
    ∧ (scanQuality (scan_product emptyDb emptyRasff okEmptyFetch "0000")).map
        DataQuality.missing_fields = some [] := by
  with_unfolding_all decide

/-- C7: the serving-size parser maps `"30 g" ↦ 30.0`, `"250ml" ↦ 250.0`,
`"0.33 L" ↦ 330.0`, `"50cl" ↦ 500.0`; and whenever neither serving-size
source field parses, the normalizer falls back to the default serving size
(330 for beverages, 100 for solids) and sets the inferred flag. -/
theorem C7_serving_size_rules (payload : OFFPayload) (barcode : Option String)
    (h1 : _parse_serving_size_to_g_or_ml (payloadProduct payload).serving_size
      = Option.none)
    (h2 : _parse_serving_size_to_g_or_ml (payloadProduct payload).nutriments_serving_size
      = Option.none) :
    _parse_serving_size_to_g_or_ml (some "30 g") = some 30
    ∧ _parse_serving_size_to_g_or_ml (some "250ml") = some 250
    ∧ _parse_serving_size_to_g_or_ml (some "0.33 L") = some 330
    ∧ _parse_serving_size_to_g_or_ml (some "50cl") = some 500
    ∧ (normalize_openfoodfacts payload barcode).serving_size_inferred = true
    ∧ (normalize_openfoodfacts payload barcode).nutrition_per_100.serving_size
      = (if (normalize_openfoodfacts payload barcode).is_beverage then 330 else 100) := by
  have hor : pyOrFloat
      (_parse_serving_size_to_g_or_ml (payloadProduct payload).serving_size)
      (_parse_serving_size_to_g_or_ml (payloadProduct payload).nutriments_serving_size)
      = Option.none := by
    rw [h1, h2]
    rfl
  refine ⟨by with_unfolding_all decide, by with_unfolding_all decide,
    by with_unfolding_all decide, by with_unfolding_all decide, ?_, ?_⟩
  · have e : (normalize_openfoodfacts payload barcode).serving_size_inferred
        = (match pyOrFloat
            (_parse_serving_size_to_g_or_ml (payloadProduct payload).serving_size)
            (_parse_serving_size_to_g_or_ml (payloadProduct payload).nutriments_serving_size)
           with
           | Option.none =>
             ((if (_infer_is_beverage (payloadProduct payload)).1 then (330 : ℚ) else 100),
               true)
           | some q => (q, false)).2 := rfl
    rw [e, hor]
  · have e : (normalize_openfoodfacts payload barcode).nutrition_per_100.serving_size
        = (match pyOrFloat
            (_parse_serving_size_to_g_or_ml (payloadProduct payload).serving_size)
            (_parse_serving_size_to_g_or_ml (payloadProduct payload).nutriments_serving_size)
           with
           | Option.none =>
             ((if (_infer_is_beverage (payloadProduct payload)).1 then (330 : ℚ) else 100),
               true)
           | some q => (q, false)).1 := rfl
    have eb : (normalize_openfoodfacts payload barcode).is_beverage
        = (_infer_is_beverage (payloadProduct payload)).1 := rfl
    rw [e, hor, eb]

theorem C7_witness :
    _parse_serving_size_to_g_or_ml (payloadProduct c7Payload).serving_size = Option.none
    ∧ (normalize_openfoodfacts c7Payload Option.none).serving_size_inferred = true
    ∧ (normalize_openfoodfacts c7Payload Option.none).nutrition_per_100.serving_size = 100 := by
  have h := C7_serving_size_rules c7Payload Option.none (by with_unfolding_all decide)
    (by with_unfolding_all decide)
  refine ⟨by with_unfolding_all decide, h.2.2.2.2.1, ?_⟩
  have h6 := h.2.2.2.2.2
  rw [show (normalize_openfoodfacts c7Payload Option.none).is_beverage = false from by
    with_unfolding_all decide] at h6
  simpa using h6

/-! ### C8 and C9 -/

/-- A product classified as a beverage by a direct (tier-3) category match. -/
def sodaProduct : OFFProduct := { categories_tags := ["en:sodas"] }

def sodaPayload : OFFPayload := { product := some sodaProduct }

def sodaFetch : OFFResult :=
  { ok := true, status := 200, payload := some sodaPayload }

def c8Profile : NutritionPer100 := ⟨"g", 0, 0, 0, 0, 100⟩

def c8Quality : DataQuality :=
  _build_data_quality "local" (some 0) (some 0) (some 0) ([] : List IngEntry)
    false false false (some "local_flag")

theorem mem_iteSingleton {α : Type} {P : Prop} [Decidable P] {a b : α} :
    (a ∈ (if P then [b] else [])) ↔ P ∧ a = b := by
  split <;> simp_all

theorem ne_bev_note {t : String} (h : t.data.head? ≠ some 'B') (s : String) :
    ("Beverage detection reason: " ++ s) ≠ t := by
  intro he
  apply h
  rw [← he]
  obtain ⟨l⟩ := s
  rfl

/-- C8 — the claim makes the beverage-reason note appear only for inferred
(non-category) classifications.  The code appends the note whenever the
quality block carries a truthy reason, which a direct category match also
does: a payload tagged `en:sodas` is classified `categories_positive`
(not inferred), yet the scan's tips contain the note. -/
theorem C8_counterexample :
    (scanQuality (scan_product emptyDb emptyRasff sodaFetch "123")).map
        DataQuality.is_beverage_inferred = some false
    ∧ "Beverage detection reason: categories_positive"
        ∈ scanTips (scan_product emptyDb emptyRasff sodaFetch "123") := by
  with_unfolding_all decide

/-- C8 (amended): for every profile, breakdown, WHO result, and quality
result, the tips sequence contains a beverage-reason note if and only if the
quality block's `beverage_inference_reason` is a truthy (non-`None`,
non-empty) string — which in pipeline outputs is every classification,
direct category matches included. -/
theorem C8_note_iff (n : NutritionPer100) (b : ScoreBreakdown) (w : WHOImpact)
    (q : DataQuality) :
    (∃ s, ("Beverage detection reason: " ++ s) ∈ (_why_this_score n b w q).tips)
    ↔ (∃ s, q.beverage_inference_reason = some s ∧ s ≠ "") := by
  have hfixed : ∀ {s : String} {noteless : List String},
      noteless = (if q.serving_size_inferred then
        ["Το μέγεθος μερίδας εκτιμήθηκε (δεν υπήρχε καθαρό serving size στο προϊόν)."]
       else []) ++
      ((if q.is_beverage && n.sugar_g ≥ 5 then
        ["Tip: για ροφήματα, η ζάχαρη ανεβαίνει γρήγορα ανά μερίδα—έλεγξε και τις \x27χωρίς ζάχαρη\x27 επιλογές."]
       else []) ++
      (if !q.is_beverage && n.sat_fat_g ≥ 5 then
        ["Tip: αν σε νοιάζει η καρδιαγγειακή υγεία, σύγκρινε και τα κορεσμένα λιπαρά ανά 100g."]
       else [])) →
      ("Beverage detection reason: " ++ s) ∈ noteless → False := by
    intro s noteless hshape hs
    subst hshape
    rcases List.mem_append.1 hs with h | h
    · exact ne_bev_note (by decide) s (mem_iteSingleton.1 h).2
    · rcases List.mem_append.1 h with h | h
      · exact ne_bev_note (by decide) s (mem_iteSingleton.1 h).2
      · exact ne_bev_note (by decide) s (mem_iteSingleton.1 h).2
  constructor
  · rintro ⟨s, hs⟩
    rcases hq : q.beverage_inference_reason with _ | r
    · exact absurd hs (fun hs => hfixed (by simp [_why_this_score, hq]) hs)
    · by_cases hr : r = ""
      · subst hr
        exact absurd hs (fun hs => hfixed (by simp [_why_this_score, hq]) hs)
      · exact ⟨r, rfl, hr⟩
  · rintro ⟨s, hq, hs⟩
    exact ⟨s, by simp [_why_this_score, hq, hs]⟩

theorem C8_witness :
    ∃ s, ("Beverage detection reason: " ++ s)
      ∈ (_why_this_score c8Profile (_v3_hybrid_score c8Profile false).breakdown
          (_who_sugar_impact c8Profile) c8Quality).tips :=
  (C8_note_iff c8Profile (_v3_hybrid_score c8Profile false).breakdown
      (_who_sugar_impact c8Profile) c8Quality).mpr
    ⟨"local_flag", rfl, by decide⟩

/-- C9: the scan yields the "not found" terminal result exactly when the
(stripped) id misses the local catalog and the remote fetch is not an
ok-with-payload outcome; the not-found result is a different constructor
from every successful body; and every successful body carries the score,
breakdown, and WHO blocks computed from its own profile and beverage flag
(the data-quality block is carried alongside). -/
theorem C9_not_found (products_db : String → Option LocalProduct)
    (rasff_db : String → Option (List String)) (off : OFFResult)
    (product_id : String) :
    (scan_product products_db rasff_db off product_id = ScanResult.notFound
      ↔ (products_db (pyStrip product_id) = Option.none
          ∧ ¬(off.ok = true ∧ off.payload.isSome = true)))
    ∧ (∀ out, scan_product products_db rasff_db off product_id = ScanResult.found out →
        out.vitascore
          = (_v3_hybrid_score out.nutrition_per_100 out.data_quality.is_beverage).score
        ∧ out.vitascore_breakdown
          = (_v3_hybrid_score out.nutrition_per_100 out.data_quality.is_beverage).breakdown
        ∧ out.who_impact = _who_sugar_impact out.nutrition_per_100)
    ∧ (∀ out, ScanResult.notFound ≠ ScanResult.found out) := by
  rcases hdb : products_db (pyStrip product_id) with _ | prod
  · cases hok : off.ok
    · have hscan : scan_product products_db rasff_db off product_id
          = ScanResult.notFound := by
        simp [scan_product, hdb, hok]
      refine ⟨?_, ?_, fun out h => ScanResult.noConfusion h⟩
      · rw [hscan]
        simp
      · intro out h
        rw [hscan] at h
        exact ScanResult.noConfusion h
    · rcases hp : off.payload with _ | payload
      · have hscan : scan_product products_db rasff_db off product_id
            = ScanResult.notFound := by
          simp [scan_product, hdb, hok, hp]
        refine ⟨?_, ?_, fun out h => ScanResult.noConfusion h⟩
        · rw [hscan]
          simp
        · intro out h
          rw [hscan] at h
          exact ScanResult.noConfusion h
      · have hscan : scan_product products_db rasff_db off product_id
            = ScanResult.found (remoteScanOutput (pyStrip product_id)
                ((rasff_db (pyStrip product_id)).getD []) payload) := by
          simp [scan_product, hdb, hok, hp]
        refine ⟨?_, ?_, fun out h => ScanResult.noConfusion h⟩
        · rw [hscan]
          constructor
          · intro h
            exact ScanResult.noConfusion h
          · rintro ⟨_, habs⟩
            exact absurd ⟨rfl, rfl⟩ habs
        · intro out h
          rw [hscan] at h
          injection h with h2
          subst h2
          exact ⟨rfl, rfl, rfl⟩
  · have hscan : scan_product products_db rasff_db off product_id
        = ScanResult.found (localScanOutput (pyStrip product_id)
            ((rasff_db (pyStrip product_id)).getD []) prod) := by
      simp [scan_product, hdb]
    refine ⟨?_, ?_, fun out h => ScanResult.noConfusion h⟩
    · rw [hscan]
      constructor
      · intro h
        exact ScanResult.noConfusion h
      · rintro ⟨habs, _⟩
        exact Option.noConfusion habs
    · intro out h
      rw [hscan] at h
      injection h with h2
      subst h2
      exact ⟨rfl, rfl, rfl⟩

theorem C9_witness :
    scan_product emptyDb emptyRasff failFetch "zzz" = ScanResult.notFound :=
  (C9_not_found emptyDb emptyRasff failFetch "zzz").1.mpr ⟨rfl, by decide⟩

end Noesis
